import Mathlib

/-!
Verification of the `ha_kia_hyundai` Home Assistant custom integration
(Kia USA vehicle coordinator) against its natural-language specification.

The Python sources are shallowly embedded:

* A vehicle snapshot (`Vehicle`) is a record whose fields are `Option`s:
  `none` models a Python attribute that is absent (`hasattr` false) or
  holds `None`; `some x` models a present attribute with value `x`.
  Python floats are modelled as `Rat`, datetimes as `Nat` tick counts.
* The coordinator's `data` dict is `Option (Option Vehicle)`:
  `none` is Python `None` (before any refresh), `some none` is the empty
  dict `{}` returned by `refresh` when the vehicle is missing from the
  manager, and `some (some v)` is `{"vehicle": v}`.
* Fallible Python code is embedded with `Except`; functions producing
  remote-API side effects return a trace (`List Call`) of the calls made.
-/

namespace HaKiaHyundai

/-- A vehicle snapshot as exposed by the `hyundai_kia_connect_api`
`Vehicle` object and read by `VehicleCoordinator`'s derived properties
(src/custom_components/ha_kia_hyundai/vehicle_coordinator.py).
Each field is `none` when the attribute is absent or `None`. -/
structure Vehicle where
  door_lock : Option Bool := none
  location_latitude : Option Rat := none
  location_longitude : Option Rat := none
  ev_battery_percentage : Option Rat := none
  odometer : Option Rat := none
  car_battery_percentage : Option Int := none
  last_updated_at : Option Nat := none
  next_service_mile : Option Rat := none
  air_control_is_on : Option Bool := none
  air_temperature : Option String := none
  defrost_is_on : Option Bool := none
  back_window_heater_is_on : Option Bool := none
  side_mirror_heater_is_on : Option Bool := none
  steering_wheel_heater_is_on : Option Bool := none
  hood_is_open : Option Bool := none
  trunk_is_open : Option Bool := none
  front_left_door_is_open : Option Bool := none
  front_right_door_is_open : Option Bool := none
  back_left_door_is_open : Option Bool := none
  back_right_door_is_open : Option Bool := none
  engine_is_running : Option Bool := none
  tire_pressure_all_warning_is_on : Option Bool := none
  low_fuel_light_is_on : Option Bool := none
  fuel_level : Option Rat := none
  ev_battery_is_charging : Option Bool := none
  ev_battery_is_plugged_in : Option Bool := none
  ev_charge_limits_ac : Option Int := none
  ev_charge_limits_dc : Option Int := none
  ev_estimated_current_charge_duration : Option Int := none
  ev_driving_range : Option Int := none
  fuel_driving_range : Option Int := none
  total_driving_range : Option Int := none

/-- The coordinator's `self.data`: `None` before any refresh, else the
dict returned by the `refresh` update method, which is `{}` or
`{"vehicle": v}`. -/
abbrev CoordData := Option (Option Vehicle)

/-- Python's default whitespace set for `str.strip()`. -/
def pyIsSpace (c : Char) : Bool :=
  c = ' ' || c = '\t' || c = '\n' || c = '\r' ||
    c = Char.ofNat 11 || c = Char.ofNat 12

/-- Python `str.strip()` with no argument: drop leading and trailing
whitespace. -/
def pyStrip (s : String) : String :=
  String.mk (((s.data.dropWhile pyIsSpace).reverse.dropWhile
    pyIsSpace).reverse)

/-- Python `str.lower()` restricted to ASCII strings (the HVAC mode
strings matched in `climate.py` are ASCII). -/
def pyLower (s : String) : String :=
  String.mk (s.data.map Char.toLower)

/-- Value of a non-empty all-digit character list, or `none`. -/
def pyDigitsVal (l : List Char) : Option Nat :=
  if l.isEmpty then none
  else
    l.foldl (fun acc c =>
      match acc with
      | none => none
      | some n => if c.isDigit then some (n * 10 + (c.toNat - 48)) else none)
      (some 0)

/-- Python `int(s)` on a string: strip whitespace, optional sign, then
decimal digits; raises (here `none`) on anything else (underscore
digit grouping is not modelled). -/
def pyIntOfString (s : String) : Option Int :=
  match (pyStrip s).data with
  | '-' :: rest => (pyDigitsVal rest).map (fun n => -(n : Int))
  | '+' :: rest => (pyDigitsVal rest).map (fun n => (n : Int))
  | l => (pyDigitsVal l).map (fun n => (n : Int))

namespace VehicleCoordinator

/-- `VehicleCoordinator.vehicle` (vehicle_coordinator.py lines 92-97):
`if self.data and "vehicle" in self.data: return self.data["vehicle"]`,
else `None`.  A Python `None` data and the empty dict `{}` are both
falsy, so both yield `None`. -/
def vehicle (data : CoordData) : Option Vehicle :=
  match data with
  | some (some v) => some v
  | _ => none

/-- `VehicleCoordinator.doors_locked`: returns `self.vehicle.door_lock`
when the vehicle is present and has the attribute, else `None`. -/
def doors_locked (data : CoordData) : Option Bool :=
  match vehicle data with
  | some v => v.door_lock
  | none => none

/-- `VehicleCoordinator.latitude`. -/
def latitude (data : CoordData) : Option Rat :=
  match vehicle data with
  | some v => v.location_latitude
  | none => none

/-- `VehicleCoordinator.longitude`. -/
def longitude (data : CoordData) : Option Rat :=
  match vehicle data with
  | some v => v.location_longitude
  | none => none

/-- `VehicleCoordinator.ev_battery_level`. -/
def ev_battery_level (data : CoordData) : Option Rat :=
  match vehicle data with
  | some v => v.ev_battery_percentage
  | none => none

/-- `VehicleCoordinator.odometer_value`. -/
def odometer_value (data : CoordData) : Option Rat :=
  match vehicle data with
  | some v => v.odometer
  | none => none

/-- `VehicleCoordinator.car_battery_level`. -/
def car_battery_level (data : CoordData) : Option Int :=
  match vehicle data with
  | some v => v.car_battery_percentage
  | none => none

/-- `VehicleCoordinator.last_synced_to_cloud`: projects the snapshot's
`last_updated_at`. -/
def last_synced_to_cloud (data : CoordData) : Option Nat :=
  match vehicle data with
  | some v => v.last_updated_at
  | none => none

/-- `VehicleCoordinator.last_synced_from_cloud`: also projects the
snapshot's `last_updated_at`. -/
def last_synced_from_cloud (data : CoordData) : Option Nat :=
  match vehicle data with
  | some v => v.last_updated_at
  | none => none

/-- `VehicleCoordinator.next_service_mile_value`. -/
def next_service_mile_value (data : CoordData) : Option Rat :=
  match vehicle data with
  | some v => v.next_service_mile
  | none => none

/-- `VehicleCoordinator.climate_hvac_on`. -/
def climate_hvac_on (data : CoordData) : Option Bool :=
  match vehicle data with
  | some v => v.air_control_is_on
  | none => none

/-- `VehicleCoordinator.climate_temperature_value` (lines 177-186):
reads `air_temperature`, and when it is truthy tries `int(temp)`,
swallowing any parse error; returns `None` otherwise. -/
def climate_temperature_value (data : CoordData) : Option Int :=
  match vehicle data with
  | some v =>
    match v.air_temperature with
    | some temp => if temp ≠ "" then pyIntOfString temp else none
    | none => none
  | none => none

/-- `VehicleCoordinator.climate_defrost_on`. -/
def climate_defrost_on (data : CoordData) : Option Bool :=
  match vehicle data with
  | some v => v.defrost_is_on
  | none => none

/-- `VehicleCoordinator.climate_heated_rear_window_on`. -/
def climate_heated_rear_window_on (data : CoordData) : Option Bool :=
  match vehicle data with
  | some v => v.back_window_heater_is_on
  | none => none

/-- `VehicleCoordinator.climate_heated_side_mirror_on`. -/
def climate_heated_side_mirror_on (data : CoordData) : Option Bool :=
  match vehicle data with
  | some v => v.side_mirror_heater_is_on
  | none => none

/-- `VehicleCoordinator.climate_heated_steering_wheel_on`. -/
def climate_heated_steering_wheel_on (data : CoordData) : Option Bool :=
  match vehicle data with
  | some v => v.steering_wheel_heater_is_on
  | none => none

/-- `VehicleCoordinator.door_hood_open`. -/
def door_hood_open (data : CoordData) : Option Bool :=
  match vehicle data with
  | some v => v.hood_is_open
  | none => none

/-- `VehicleCoordinator.door_trunk_open`. -/
def door_trunk_open (data : CoordData) : Option Bool :=
  match vehicle data with
  | some v => v.trunk_is_open
  | none => none

/-- `VehicleCoordinator.door_front_left_open`. -/
def door_front_left_open (data : CoordData) : Option Bool :=
  match vehicle data with
  | some v => v.front_left_door_is_open
  | none => none

/-- `VehicleCoordinator.door_front_right_open`. -/
def door_front_right_open (data : CoordData) : Option Bool :=
  match vehicle data with
  | some v => v.front_right_door_is_open
  | none => none

/-- `VehicleCoordinator.door_back_left_open`. -/
def door_back_left_open (data : CoordData) : Option Bool :=
  match vehicle data with
  | some v => v.back_left_door_is_open
  | none => none

/-- `VehicleCoordinator.door_back_right_open`. -/
def door_back_right_open (data : CoordData) : Option Bool :=
  match vehicle data with
  | some v => v.back_right_door_is_open
  | none => none

/-- `VehicleCoordinator.engine_on`. -/
def engine_on (data : CoordData) : Option Bool :=
  match vehicle data with
  | some v => v.engine_is_running
  | none => none

/-- `VehicleCoordinator.tire_all_on`. -/
def tire_all_on (data : CoordData) : Option Bool :=
  match vehicle data with
  | some v => v.tire_pressure_all_warning_is_on
  | none => none

/-- `VehicleCoordinator.low_fuel_light_on`. -/
def low_fuel_light_on (data : CoordData) : Option Bool :=
  match vehicle data with
  | some v => v.low_fuel_light_is_on
  | none => none

/-- `VehicleCoordinator.fuel_level`. -/
def fuel_level (data : CoordData) : Option Rat :=
  match vehicle data with
  | some v => v.fuel_level
  | none => none

/-- `VehicleCoordinator.ev_battery_charging`. -/
def ev_battery_charging (data : CoordData) : Option Bool :=
  match vehicle data with
  | some v => v.ev_battery_is_charging
  | none => none

/-- `VehicleCoordinator.ev_plugged_in`. -/
def ev_plugged_in (data : CoordData) : Option Bool :=
  match vehicle data with
  | some v => v.ev_battery_is_plugged_in
  | none => none

/-- `VehicleCoordinator.ev_charge_limits_ac`. -/
def ev_charge_limits_ac (data : CoordData) : Option Int :=
  match vehicle data with
  | some v => v.ev_charge_limits_ac
  | none => none

/-- `VehicleCoordinator.ev_charge_limits_dc`. -/
def ev_charge_limits_dc (data : CoordData) : Option Int :=
  match vehicle data with
  | some v => v.ev_charge_limits_dc
  | none => none

/-- `VehicleCoordinator.ev_charge_current_remaining_duration`. -/
def ev_charge_current_remaining_duration (data : CoordData) : Option Int :=
  match vehicle data with
  | some v => v.ev_estimated_current_charge_duration
  | none => none

/-- `VehicleCoordinator.ev_remaining_range_value`. -/
def ev_remaining_range_value (data : CoordData) : Option Int :=
  match vehicle data with
  | some v => v.ev_driving_range
  | none => none

/-- `VehicleCoordinator.fuel_remaining_range_value`. -/
def fuel_remaining_range_value (data : CoordData) : Option Int :=
  match vehicle data with
  | some v => v.fuel_driving_range
  | none => none

/-- `VehicleCoordinator.total_remaining_range_value`. -/
def total_remaining_range_value (data : CoordData) : Option Int :=
  match vehicle data with
  | some v => v.total_driving_range
  | none => none

/-- `VehicleCoordinator.climate_driver_seat` (lines 336-341): the source
returns the fixed placeholder tuple `(0, 1)` unconditionally. -/
def climate_driver_seat (_data : CoordData) : Nat × Nat := (0, 1)

/-- `VehicleCoordinator.climate_passenger_seat`: fixed `(0, 1)`. -/
def climate_passenger_seat (_data : CoordData) : Nat × Nat := (0, 1)

/-- `VehicleCoordinator.climate_left_rear_seat`: fixed `(0, 1)`. -/
def climate_left_rear_seat (_data : CoordData) : Nat × Nat := (0, 1)

/-- `VehicleCoordinator.climate_right_rear_seat`: fixed `(0, 1)`. -/
def climate_right_rear_seat (_data : CoordData) : Nat × Nat := (0, 1)

end VehicleCoordinator

/-- The account session's per-vehicle map `vehicle_manager.vehicles`,
keyed by vehicle id. -/
abbrev ManagerVehicles := List (String × Vehicle)

/-- The coordinator's `refresh` update method (vehicle_coordinator.py
lines 58-79): runs `update_vehicle_with_cached_state` (which may raise,
embedded as the `Except.error` of `update_result`), then reads
`vehicle_manager.vehicles.get(vehicle_id)`.  If the vehicle is missing
it returns the empty dict `{}` (here `Except.ok none`); otherwise it
returns `{"vehicle": vehicle}` (`Except.ok (some v)`).  Any exception
is re-raised. -/
def refresh (update_result : Except Unit ManagerVehicles)
    (vehicle_id : String) : Except Unit (Option Vehicle) :=
  match update_result with
  | .error e => .error e
  | .ok vehicles => .ok (vehicles.lookup vehicle_id)

/-- Modelled from the spec: the host scheduler's coordinator pattern
stores the update method's return value as `self.data` when the method
returns, and on an error leaves the previous data in place, merely
marking the coordinator unavailable until the next successful refresh
("errors during steady-state refresh are reported to the host
scheduler, which marks the affected coordinator's data
stale/unavailable"). -/
def coordinatorStep (data : CoordData)
    (refresh_result : Except Unit (Option Vehicle)) : CoordData :=
  match refresh_result with
  | .error _ => data
  | .ok d => some d

/-- Python truthiness of an optional bool: `None` is falsy. -/
def pyTruthy : Option Bool → Bool
  | some b => b
  | none => false

/-- The climate entity's HVAC modes exposed by `Thermostat`
(climate.py): only `OFF` and `HEAT_COOL` are advertised. -/
inductive HVACMode where
  | off
  | heat_cool
  deriving DecidableEq, Repr

/-- Python `int(x)` on a float: truncation toward zero (floats are
modelled as rationals). -/
def pyIntTrunc (q : Rat) : Int :=
  if 0 ≤ q then q.floor else q.ceil

/-- A remote or framework call issued by an entity adapter, recorded as
a trace element. -/
inductive Call where
  | stop_climate (vehicle_id : String)
  | start_climate (vehicle_id : String) (set_temp : Int) (defrost : Bool)
      (climate_on : Bool) (heating : Bool)
  | async_update_listeners
  | async_request_refresh
  deriving DecidableEq, Repr

namespace Thermostat

/-- `Thermostat.hvac_mode` (climate.py lines 77-83):
`HEAT_COOL` when `self.coordinator.climate_hvac_on` is truthy, else
`OFF`. -/
def hvac_mode (data : CoordData) : HVACMode :=
  if pyTruthy (VehicleCoordinator.climate_hvac_on data) then
    HVACMode.heat_cool
  else
    HVACMode.off

/-- `Thermostat.async_set_hvac_mode` (climate.py lines 85-106), as the
trace of calls it performs.  The requested mode string is normalised
with `.strip().lower()` and matched against `HVACMode.OFF` (`"off"`),
`HVACMode.HEAT_COOL` (`"heat_cool"`) or `HVACMode.AUTO` (`"auto"`);
afterwards listeners are updated and a debounced coordinator refresh is
requested unconditionally. -/
def async_set_hvac_mode (vehicle_id : String) (target_temperature : Rat)
    (climate_desired_defrost : Bool) (climate_desired_heating_acc : Bool)
    (hvac_mode_arg : String) : List Call :=
  let m := pyLower (pyStrip hvac_mode_arg)
  (if m = "off" then
    [Call.stop_climate vehicle_id]
  else if m = "heat_cool" ∨ m = "auto" then
    [Call.start_climate vehicle_id (pyIntTrunc target_temperature)
      climate_desired_defrost true climate_desired_heating_acc]
  else
    [])
  ++ [Call.async_update_listeners, Call.async_request_refresh]

end Thermostat

/-- The exception raised inside the `try` block of `async_setup_entry`
or `async_step_user`: authentication failure, upstream API failure, or
any other exception.  Each carries the stringified original error. -/
inductive SetupError where
  | authentication (msg : String)
  | api (msg : String)
  | unexpected (msg : String)
  deriving DecidableEq, Repr

/-- The observable outcome of `async_setup_entry` (`__init__.py` lines
46-132): raising `ConfigEntryAuthFailed`, raising `ConfigEntryError`
with a message, or completing with a map of per-vehicle coordinators
stored as the entry's data. -/
inductive SetupResult where
  | raised_auth_failed (msg : String)
  | raised_entry_error (msg : String)
  | ok (coordinators : List String)
  deriving DecidableEq, Repr

/-- `async_setup_entry` (`__init__.py` lines 62-132) as a function of
the combined outcome of token refresh plus vehicle fetch
(`login_fetch`): an `AuthenticationError` raises
`ConfigEntryAuthFailed`, an `APIError` or any other exception raises
`ConfigEntryError`, and on success an empty vehicle map raises
`ConfigEntryError("No vehicles found in account")`; otherwise one
coordinator per vehicle id is created and stored. -/
def async_setup_entry
    (login_fetch : Except SetupError ManagerVehicles) : SetupResult :=
  match login_fetch with
  | .error (.authentication m) => .raised_auth_failed m
  | .error (.api m) => .raised_entry_error ("API error: " ++ m)
  | .error (.unexpected m) => .raised_entry_error ("Unexpected error: " ++ m)
  | .ok vehicles =>
    if vehicles.isEmpty then
      .raised_entry_error "No vehicles found in account"
    else
      .ok (vehicles.map Prod.fst)

/-- The vehicle coordinators constructed by a setup outcome: none when
setup raised before the construction loop. -/
def coordinatorsCreated : SetupResult → List String
  | .ok coords => coords
  | _ => []

/-- Whether per-entry state was stored in `hass.data` by a setup
outcome: only a completed setup stores anything. -/
def entryDataStored : SetupResult → Bool
  | .ok _ => true
  | _ => false

/-- The observable outcome of the config flow's user step: re-showing
the form carrying `errors["base"]`, or advancing to entry creation. -/
inductive FlowResult where
  | show_form (error_base : Option String)
  | create_entries
  deriving DecidableEq, Repr

/-- `KiaUvoConfigFlowHandler.async_step_user` (config_flow.py lines
82-131), on the branch where user input was supplied: login and fetch
errors map to the error keys `invalid_auth`, `cannot_connect` and
`unknown`; an empty vehicle map maps to `no_vehicles`; otherwise the
flow advances to `async_step_create_entries`. -/
def async_step_user
    (login_fetch : Except SetupError ManagerVehicles) : FlowResult :=
  match login_fetch with
  | .error (.authentication _) => .show_form (some "invalid_auth")
  | .error (.api _) => .show_form (some "cannot_connect")
  | .error (.unexpected _) => .show_form (some "unknown")
  | .ok vehicles =>
    if vehicles.isEmpty then
      .show_form (some "no_vehicles")
    else
      .create_entries

/-- Modelled from the spec: the host framework's default cooldown for
debounced request-refresh calls (`REQUEST_REFRESH_DEFAULT_COOLDOWN`),
in seconds. -/
def REQUEST_REFRESH_DEFAULT_COOLDOWN : Nat := 10

/-- The debouncer configuration handed to the coordinator
(vehicle_coordinator.py lines 51-56): cooldown equal to the default
request-refresh cooldown and `immediate=False`. -/
structure DebouncerConfig where
  cooldown : Nat
  immediate : Bool
  deriving DecidableEq, Repr

/-- The `request_refresh_debouncer` built in
`VehicleCoordinator.__init__`. -/
def request_refresh_debouncer : DebouncerConfig :=
  { cooldown := REQUEST_REFRESH_DEFAULT_COOLDOWN, immediate := false }

/-- Modelled from the spec: a non-immediate debouncer processing a
time-sorted list of refresh requests.  A request arriving while no
execution is pending schedules one execution at `t + cooldown`; a
request arriving before a pending execution fires is coalesced into it;
a request arriving after the pending execution has fired schedules a
new one.  Returns the number of underlying refresh executions. -/
def debounceProcess (cooldown : Nat) :
    List Nat → Option Nat → Nat → Nat
  | [], none, count => count
  | [], some _, count => count + 1
  | t :: rest, none, count =>
      debounceProcess cooldown rest (some (t + cooldown)) count
  | t :: rest, some fire_at, count =>
      if t < fire_at then
        debounceProcess cooldown rest (some fire_at) count
      else
        debounceProcess cooldown rest (some (t + cooldown)) (count + 1)

/-- Number of underlying refresh executions a non-immediate debouncer
performs for a time-sorted list of requests. -/
def debounceExecutions (cooldown : Nat) (requests : List Nat) : Nat :=
  debounceProcess cooldown requests none 0

/-- A concrete vehicle snapshot used to instantiate theorems. -/
def sampleVehicle : Vehicle :=
  { door_lock := some true
    location_latitude := some (37 : Rat)
    fuel_driving_range := some 210 }

/-- A concrete vehicle snapshot whose `air_temperature` is the string
`" 72"`. -/
def tempVehicle : Vehicle :=
  { air_temperature := some " 72" }

/-- Claim C1: every derived read property of the coordinator returns
the unknown sentinel `none` when no snapshot exists (`data` is `None`
or the empty dict) and never raises (it is a total function), and when
a snapshot is present each getter returns exactly the underlying
vehicle field (which is itself `none` when the attribute is absent). -/
theorem claim_C1_derived_properties_project_snapshot (data : CoordData) :
    (VehicleCoordinator.vehicle none = none ∧
      VehicleCoordinator.vehicle (some none) = none) ∧
    (VehicleCoordinator.vehicle data = none →
      VehicleCoordinator.doors_locked data = none ∧
      VehicleCoordinator.latitude data = none ∧
      VehicleCoordinator.longitude data = none ∧
      VehicleCoordinator.ev_battery_level data = none ∧
      VehicleCoordinator.odometer_value data = none ∧
      VehicleCoordinator.car_battery_level data = none ∧
      VehicleCoordinator.last_synced_to_cloud data = none ∧
      VehicleCoordinator.last_synced_from_cloud data = none ∧
      VehicleCoordinator.next_service_mile_value data = none ∧
      VehicleCoordinator.climate_hvac_on data = none ∧
      VehicleCoordinator.climate_defrost_on data = none ∧
      VehicleCoordinator.climate_heated_rear_window_on data = none ∧
      VehicleCoordinator.climate_heated_side_mirror_on data = none ∧
      VehicleCoordinator.climate_heated_steering_wheel_on data = none ∧
      VehicleCoordinator.door_hood_open data = none ∧
      VehicleCoordinator.door_trunk_open data = none ∧
      VehicleCoordinator.door_front_left_open data = none ∧
      VehicleCoordinator.door_front_right_open data = none ∧
      VehicleCoordinator.door_back_left_open data = none ∧
      VehicleCoordinator.door_back_right_open data = none ∧
      VehicleCoordinator.engine_on data = none ∧
      VehicleCoordinator.tire_all_on data = none ∧
      VehicleCoordinator.low_fuel_light_on data = none ∧
      VehicleCoordinator.fuel_level data = none ∧
      VehicleCoordinator.ev_battery_charging data = none ∧
      VehicleCoordinator.ev_plugged_in data = none ∧
      VehicleCoordinator.ev_charge_limits_ac data = none ∧
      VehicleCoordinator.ev_charge_limits_dc data = none ∧
      VehicleCoordinator.ev_charge_current_remaining_duration data = none ∧
      VehicleCoordinator.ev_remaining_range_value data = none ∧
      VehicleCoordinator.fuel_remaining_range_value data = none ∧
      VehicleCoordinator.total_remaining_range_value data = none) ∧
    (∀ v, VehicleCoordinator.vehicle data = some v →
      VehicleCoordinator.doors_locked data = v.door_lock ∧
      VehicleCoordinator.latitude data = v.location_latitude ∧
      VehicleCoordinator.longitude data = v.location_longitude ∧
      VehicleCoordinator.ev_battery_level data = v.ev_battery_percentage ∧
      VehicleCoordinator.odometer_value data = v.odometer ∧
      VehicleCoordinator.car_battery_level data = v.car_battery_percentage ∧
      VehicleCoordinator.last_synced_to_cloud data = v.last_updated_at ∧
      VehicleCoordinator.last_synced_from_cloud data = v.last_updated_at ∧
      VehicleCoordinator.next_service_mile_value data = v.next_service_mile ∧
      VehicleCoordinator.climate_hvac_on data = v.air_control_is_on ∧
      VehicleCoordinator.climate_defrost_on data = v.defrost_is_on ∧
      VehicleCoordinator.climate_heated_rear_window_on data
        = v.back_window_heater_is_on ∧
      VehicleCoordinator.climate_heated_side_mirror_on data
        = v.side_mirror_heater_is_on ∧
      VehicleCoordinator.climate_heated_steering_wheel_on data
        = v.steering_wheel_heater_is_on ∧
      VehicleCoordinator.door_hood_open data = v.hood_is_open ∧
      VehicleCoordinator.door_trunk_open data = v.trunk_is_open ∧
      VehicleCoordinator.door_front_left_open data
        = v.front_left_door_is_open ∧
      VehicleCoordinator.door_front_right_open data
        = v.front_right_door_is_open ∧
      VehicleCoordinator.door_back_left_open data
        = v.back_left_door_is_open ∧
      VehicleCoordinator.door_back_right_open data
        = v.back_right_door_is_open ∧
      VehicleCoordinator.engine_on data = v.engine_is_running ∧
      VehicleCoordinator.tire_all_on data
        = v.tire_pressure_all_warning_is_on ∧
      VehicleCoordinator.low_fuel_light_on data = v.low_fuel_light_is_on ∧
      VehicleCoordinator.fuel_level data = v.fuel_level ∧
      VehicleCoordinator.ev_battery_charging data
        = v.ev_battery_is_charging ∧
      VehicleCoordinator.ev_plugged_in data = v.ev_battery_is_plugged_in ∧
      VehicleCoordinator.ev_charge_limits_ac data = v.ev_charge_limits_ac ∧
      VehicleCoordinator.ev_charge_limits_dc data = v.ev_charge_limits_dc ∧
      VehicleCoordinator.ev_charge_current_remaining_duration data
        = v.ev_estimated_current_charge_duration ∧
      VehicleCoordinator.ev_remaining_range_value data
        = v.ev_driving_range ∧
      VehicleCoordinator.fuel_remaining_range_value data
        = v.fuel_driving_range ∧
      VehicleCoordinator.total_remaining_range_value data
        = v.total_driving_range) := by
  refine ⟨⟨rfl, rfl⟩, ?_, ?_⟩
  · intro h
    rcases data with _ | w
    · repeat' apply And.intro
      all_goals rfl
    · rcases w with _ | w
      · repeat' apply And.intro
        all_goals rfl
      · simp [VehicleCoordinator.vehicle] at h
  · intro v hv
    rcases data with _ | w
    · simp [VehicleCoordinator.vehicle] at hv
    · rcases w with _ | w
      · simp [VehicleCoordinator.vehicle] at hv
      · have hw : w = v := by
          simpa [VehicleCoordinator.vehicle] using hv
        subst hw
        repeat' apply And.intro
        all_goals rfl

/-- Witness for claim C1 at concrete inputs: the absent-snapshot case
and a present snapshot whose `door_lock` is `some true`. -/
theorem claim_C1_derived_properties_project_snapshot_witness :
    VehicleCoordinator.doors_locked none = none ∧
    VehicleCoordinator.doors_locked (some (some sampleVehicle))
      = some true :=
  ⟨((claim_C1_derived_properties_project_snapshot none).2.1 rfl).1,
    (((claim_C1_derived_properties_project_snapshot
      (some (some sampleVehicle))).2.2 sampleVehicle rfl).1).trans rfl⟩

/-- Claim C2 counterexample: the claim "once the snapshot has been set,
no subsequent call of the refresh update method can make it absent
again" is false on the code.  Concretely, starting from a coordinator
whose data holds `sampleVehicle`, a refresh that completes while the
manager's vehicle map no longer contains the vehicle id returns the
empty dict `{}`, which the host stores, after which
`VehicleCoordinator.vehicle` is `none` again. -/
theorem claim_C2_snapshot_can_become_absent_again :
    VehicleCoordinator.vehicle (some (some sampleVehicle))
      = some sampleVehicle ∧
    refresh (Except.ok ([] : ManagerVehicles)) "vehicle-1"
      = Except.ok none ∧
    coordinatorStep (some (some sampleVehicle))
      (refresh (Except.ok ([] : ManagerVehicles)) "vehicle-1")
      = some none ∧
    VehicleCoordinator.vehicle
      (coordinatorStep (some (some sampleVehicle))
        (refresh (Except.ok ([] : ManagerVehicles)) "vehicle-1"))
      = none :=
  ⟨rfl, rfl, rfl, rfl⟩

/-- Claim C2 (amended): once the snapshot is set, a refresh that raises
leaves the coordinator data (and hence the snapshot) unchanged, and a
refresh that completes while the vehicle is still present in the
manager's map replaces the snapshot with the fetched vehicle; the
snapshot becomes absent exactly when a completing refresh finds the
vehicle id missing from the manager's map. -/
theorem claim_C2_amended_snapshot_persistence (data : CoordData)
    (v : Vehicle) (vid : String) (upd : Except Unit ManagerVehicles)
    (hv : VehicleCoordinator.vehicle data = some v) :
    (∀ e, upd = Except.error e →
      coordinatorStep data (refresh upd vid) = data ∧
      VehicleCoordinator.vehicle (coordinatorStep data (refresh upd vid))
        = some v) ∧
    (∀ mgr w, upd = Except.ok mgr → mgr.lookup vid = some w →
      VehicleCoordinator.vehicle (coordinatorStep data (refresh upd vid))
        = some w) ∧
    (∀ mgr, upd = Except.ok mgr → mgr.lookup vid = none →
      VehicleCoordinator.vehicle (coordinatorStep data (refresh upd vid))
        = none) := by
  refine ⟨?_, ?_, ?_⟩
  · intro e he
    subst he
    exact ⟨rfl, hv⟩
  · intro mgr w hm hl
    subst hm
    simp [refresh, coordinatorStep, VehicleCoordinator.vehicle, hl]
  · intro mgr hm hl
    subst hm
    simp [refresh, coordinatorStep, VehicleCoordinator.vehicle, hl]

/-- Witness for the amended claim C2: with the vehicle still present in
the manager, a completing refresh keeps the snapshot set. -/
theorem claim_C2_amended_snapshot_persistence_witness :
    VehicleCoordinator.vehicle
      (coordinatorStep (some (some sampleVehicle))
        (refresh (Except.ok [("vehicle-1", sampleVehicle)]) "vehicle-1"))
      = some sampleVehicle :=
  (claim_C2_amended_snapshot_persistence (some (some sampleVehicle))
      sampleVehicle "vehicle-1" (Except.ok [("vehicle-1", sampleVehicle)])
      rfl).2.1 [("vehicle-1", sampleVehicle)] sampleVehicle rfl rfl

/-- Claim C3: requesting HVAC mode heat-cool makes the thermostat call
`start_climate(vehicle_id, int(target_temperature),
climate_desired_defrost, True, climate_desired_heating_acc)` and then
request a (debounced) coordinator refresh; requesting off calls
`stop_climate(vehicle_id)` and then requests a refresh; and the exposed
`hvac_mode` is heat-cool exactly when the snapshot reports
`air_control_is_on` true. -/
theorem claim_C3_set_hvac_mode_contract (vid : String)
    (target_temperature : Rat) (d h : Bool) (data : CoordData) :
    Thermostat.async_set_hvac_mode vid target_temperature d h "heat_cool"
      = [Call.start_climate vid (pyIntTrunc target_temperature) d true h,
         Call.async_update_listeners, Call.async_request_refresh] ∧
    Thermostat.async_set_hvac_mode vid target_temperature d h "off"
      = [Call.stop_climate vid, Call.async_update_listeners,
         Call.async_request_refresh] ∧
    (Thermostat.hvac_mode data = HVACMode.heat_cool ↔
      VehicleCoordinator.climate_hvac_on data = some true) := by
  have hs : pyLower (pyStrip "heat_cool") = "heat_cool" := by decide
  have ho : pyLower (pyStrip "off") = "off" := by decide
  refine ⟨?_, ?_, ?_⟩
  · simp [Thermostat.async_set_hvac_mode, hs]
  · simp [Thermostat.async_set_hvac_mode, ho]
  · rcases hb : VehicleCoordinator.climate_hvac_on data with _ | b
    · simp [Thermostat.hvac_mode, hb, pyTruthy]
    · cases b <;> simp [Thermostat.hvac_mode, hb, pyTruthy]

/-- Claim C4: an `AuthenticationError` during initial setup raises
`ConfigEntryAuthFailed` before any coordinator is constructed or
per-entry state stored; an `APIError` or any other exception likewise
aborts setup with a `ConfigEntryError`; the config flow maps the same
three failures to the `invalid_auth`, `cannot_connect` and `unknown`
form errors. -/
theorem claim_C4_setup_errors_abort (m : String) :
    async_setup_entry (Except.error (SetupError.authentication m))
      = SetupResult.raised_auth_failed m ∧
    coordinatorsCreated
      (async_setup_entry (Except.error (SetupError.authentication m)))
      = [] ∧
    entryDataStored
      (async_setup_entry (Except.error (SetupError.authentication m)))
      = false ∧
    async_setup_entry (Except.error (SetupError.api m))
      = SetupResult.raised_entry_error ("API error: " ++ m) ∧
    coordinatorsCreated
      (async_setup_entry (Except.error (SetupError.api m))) = [] ∧
    entryDataStored
      (async_setup_entry (Except.error (SetupError.api m))) = false ∧
    async_setup_entry (Except.error (SetupError.unexpected m))
      = SetupResult.raised_entry_error ("Unexpected error: " ++ m) ∧
    coordinatorsCreated
      (async_setup_entry (Except.error (SetupError.unexpected m))) = [] ∧
    entryDataStored
      (async_setup_entry (Except.error (SetupError.unexpected m)))
      = false ∧
    async_step_user (Except.error (SetupError.authentication m))
      = FlowResult.show_form (some "invalid_auth") ∧
    async_step_user (Except.error (SetupError.api m))
      = FlowResult.show_form (some "cannot_connect") ∧
    async_step_user (Except.error (SetupError.unexpected m))
      = FlowResult.show_form (some "unknown") :=
  ⟨rfl, rfl, rfl, rfl, rfl, rfl, rfl, rfl, rfl, rfl, rfl, rfl⟩

/-- Claim C5: a successful login and fetch that yields zero vehicles
makes `async_setup_entry` raise `ConfigEntryError("No vehicles found in
account")` with no coordinator and no per-entry state created, and
makes the config flow re-show the form with the `no_vehicles` error
instead of creating an entry. -/
theorem claim_C5_no_vehicles_aborts_setup :
    async_setup_entry (Except.ok ([] : ManagerVehicles))
      = SetupResult.raised_entry_error "No vehicles found in account" ∧
    coordinatorsCreated
      (async_setup_entry (Except.ok ([] : ManagerVehicles))) = [] ∧
    entryDataStored
      (async_setup_entry (Except.ok ([] : ManagerVehicles))) = false ∧
    async_step_user (Except.ok ([] : ManagerVehicles))
      = FlowResult.show_form (some "no_vehicles") ∧
    async_step_user (Except.ok ([] : ManagerVehicles))
      ≠ FlowResult.create_entries := by
  refine ⟨rfl, rfl, rfl, rfl, ?_⟩
  simp [async_step_user]

/-- Claim C6: `climate_temperature_value` only coerces the snapshot's
`air_temperature` field: with no snapshot or an unset field it returns
`none`; with a set field that parses as a Python integer it returns
that integer; and on parse failure it returns `none`. -/
theorem claim_C6_climate_temperature_coercion (data : CoordData) :
    (VehicleCoordinator.vehicle data = none →
      VehicleCoordinator.climate_temperature_value data = none) ∧
    (∀ v, VehicleCoordinator.vehicle data = some v →
      (v.air_temperature = none →
        VehicleCoordinator.climate_temperature_value data = none) ∧
      (∀ s n, v.air_temperature = some s → pyIntOfString s = some n →
        VehicleCoordinator.climate_temperature_value data = some n) ∧
      (∀ s, v.air_temperature = some s → pyIntOfString s = none →
        VehicleCoordinator.climate_temperature_value data = none)) := by
  have hempty : pyIntOfString "" = none := by decide
  rcases data with _ | w
  · exact ⟨fun _ => rfl, fun v hv => by
      simp [VehicleCoordinator.vehicle] at hv⟩
  · rcases w with _ | w
    · exact ⟨fun _ => rfl, fun v hv => by
        simp [VehicleCoordinator.vehicle] at hv⟩
    · refine ⟨fun hnone => by simp [VehicleCoordinator.vehicle] at hnone,
        ?_⟩
      intro v hv
      have hw : w = v := by
        simpa [VehicleCoordinator.vehicle] using hv
      subst hw
      refine ⟨?_, ?_, ?_⟩
      · intro ha
        simp [VehicleCoordinator.climate_temperature_value,
          VehicleCoordinator.vehicle, ha]
      · intro s n hs hp
        by_cases he : s = ""
        · subst he
          rw [hempty] at hp
          exact absurd hp (by simp)
        · simp [VehicleCoordinator.climate_temperature_value,
            VehicleCoordinator.vehicle, hs, he, hp]
      · intro s hs hp
        by_cases he : s = ""
        · subst he
          simp [VehicleCoordinator.climate_temperature_value,
            VehicleCoordinator.vehicle, hs]
        · simp [VehicleCoordinator.climate_temperature_value,
            VehicleCoordinator.vehicle, hs, he, hp]

/-- Witness for claim C6: the string `" 72"` parses to `72`, and the
absent-snapshot case returns `none`. -/
theorem claim_C6_climate_temperature_coercion_witness :
    VehicleCoordinator.climate_temperature_value (some (some tempVehicle))
      = some 72 ∧
    VehicleCoordinator.climate_temperature_value none = none :=
  ⟨((claim_C6_climate_temperature_coercion
      (some (some tempVehicle))).2 tempVehicle rfl).2.1 " 72" 72 rfl
      (by decide),
    (claim_C6_climate_temperature_coercion none).1 rfl⟩

/-- Claim C7: the coordinator's request-refresh debouncer is configured
non-immediate with the default cooldown, and two refresh requests
arriving within one debounce window are coalesced into exactly one
underlying refresh execution. -/
theorem claim_C7_debounce_coalesces (t1 t2 : Nat) (_h12 : t1 ≤ t2)
    (hwin : t2 < t1 + request_refresh_debouncer.cooldown) :
    request_refresh_debouncer.immediate = false ∧
    debounceExecutions request_refresh_debouncer.cooldown [t1, t2] = 1 := by
  refine ⟨rfl, ?_⟩
  unfold debounceExecutions
  simp [debounceProcess, hwin]

/-- Witness for claim C7: requests at times 0 and 3 with the default
cooldown fall in one window and produce one execution. -/
theorem claim_C7_debounce_coalesces_witness :
    (0 : Nat) ≤ 3 ∧ 3 < 0 + request_refresh_debouncer.cooldown ∧
    debounceExecutions request_refresh_debouncer.cooldown [0, 3] = 1 :=
  ⟨by decide, by decide,
    (claim_C7_debounce_coalesces 0 3 (by decide) (by decide)).2⟩

/-- Claim C8: the four seat-comfort status properties return the fixed
placeholder tuple `(0, 1)` for every coordinator state. -/
theorem claim_C8_seat_status_placeholder (data : CoordData) :
    VehicleCoordinator.climate_driver_seat data = (0, 1) ∧
    VehicleCoordinator.climate_passenger_seat data = (0, 1) ∧
    VehicleCoordinator.climate_left_rear_seat data = (0, 1) ∧
    VehicleCoordinator.climate_right_rear_seat data = (0, 1) :=
  ⟨rfl, rfl, rfl, rfl⟩

/-- Claim C9: `last_synced_to_cloud` and `last_synced_from_cloud` are
both projections of the snapshot's `last_updated_at` and therefore
coincide for every coordinator state. -/
theorem claim_C9_sync_timestamps_coincide (data : CoordData) :
    VehicleCoordinator.last_synced_to_cloud data
      = VehicleCoordinator.last_synced_from_cloud data := by
  rcases data with _ | (_ | v) <;> rfl

/-- Claim C10: whenever `climate_hvac_on` is not `some true` — in
particular before any snapshot exists, where it is `none` — the
thermostat's exposed `hvac_mode` is `OFF`. -/
theorem claim_C10_hvac_mode_off_when_not_on (data : CoordData)
    (h : VehicleCoordinator.climate_hvac_on data ≠ some true) :
    Thermostat.hvac_mode data = HVACMode.off := by
  rcases hb : VehicleCoordinator.climate_hvac_on data with _ | b
  · simp [Thermostat.hvac_mode, hb, pyTruthy]
  · cases b
    · simp [Thermostat.hvac_mode, hb, pyTruthy]
    · exact absurd hb h

/-- Witness for claim C10: before any snapshot, `climate_hvac_on` is
`none` and the exposed mode is `OFF`. -/
theorem claim_C10_hvac_mode_off_when_not_on_witness :
    VehicleCoordinator.climate_hvac_on none ≠ some true ∧
    Thermostat.hvac_mode none = HVACMode.off :=
  ⟨by decide, claim_C10_hvac_mode_off_when_not_on none (by decide)⟩

end HaKiaHyundai
